import Mathlib

/-!
Verification of the TrackMint manufacturing backend's business-logic core:
stock ledger (moving-average costing), BOM cost roll-up, work-order /
manufacturing-order lifecycle, sequential order numbering, and role-based
permission evaluation.  Each definition below is a shallow embedding of the
corresponding Python function; decimals are modelled as rationals, database
rows as lists of structures, and raised exceptions as `Except` errors.
-/

deriving instance DecidableEq for Except

namespace TrackMint

/-! ## Stock ledger (`app/api/routes/stock.py`, `create_stock_move`) -/

/-- The three recognized stock-move type names ("Receipt", "Issue",
"Adjustment" rows of the `stock_move_types` lookup table). -/
inductive MoveType
  | receipt
  | issue
  | adjustment
deriving DecidableEq

/-- The stock-relevant fields of a `Product` row: `stock_quantity` and
`unit_cost`. -/
structure Product where
  stock_quantity : ℚ
  unit_cost : ℚ
deriving DecidableEq

/-- Business error raised on an issue exceeding available stock, carrying the
required and available quantities (`validate_stock_availability` details /
the route's HTTP 400 "Insufficient stock ... Available: ..."). -/
inductive StockError
  | insufficientStock (required available : ℚ)
deriving DecidableEq

/-- `validate_stock_availability` from `app/utils/exceptions.py`: fails with
`INSUFFICIENT_STOCK` when `available_quantity < required_quantity`. -/
def validate_stock_availability (required available : ℚ) : Except StockError Unit :=
  if available < required then .error (.insufficientStock required available)
  else .ok ()

/-- The product-mutation core of `create_stock_move`: updates
`stock_quantity` (and, for a receipt into positive stock, the moving-average
`unit_cost`); an issue larger than the available stock aborts.  The receipt
cost formula is written exactly as in the source, in terms of the already
incremented quantity. -/
def applyStockMove (p : Product) (mt : MoveType) (quantity unit_cost : ℚ) :
    Except StockError Product :=
  match mt with
  | .receipt =>
    let newQty := p.stock_quantity + quantity
    if newQty > 0 then
      .ok { stock_quantity := newQty,
            unit_cost := ((newQty - quantity) * p.unit_cost + quantity * unit_cost) / newQty }
    else
      .ok { stock_quantity := newQty, unit_cost := p.unit_cost }
  | .issue =>
    if p.stock_quantity < quantity then
      .error (.insufficientStock quantity p.stock_quantity)
    else
      .ok { stock_quantity := p.stock_quantity - quantity, unit_cost := p.unit_cost }
  | .adjustment =>
    .ok { stock_quantity := p.stock_quantity + quantity, unit_cost := p.unit_cost }

/-- The product state actually committed by the enclosing transaction: on an
error the transaction aborts and the product row is unchanged. -/
def committedProduct (p : Product) (mt : MoveType) (quantity unit_cost : ℚ) : Product :=
  ((applyStockMove p mt quantity unit_cost).toOption).getD p

/-- C1: an Issue move of quantity `q` against stock `oldQty` fails with
`InsufficientStock` (carrying required and available) and leaves the product
unchanged when `q > oldQty`; otherwise it succeeds with stock `oldQty - q`
and unchanged unit cost. -/
theorem issue_insufficient_or_decrements (p : Product) (q c : ℚ) :
    (p.stock_quantity < q →
      applyStockMove p .issue q c = .error (.insufficientStock q p.stock_quantity)
        ∧ committedProduct p .issue q c = p)
    ∧ (q ≤ p.stock_quantity →
      applyStockMove p .issue q c =
        .ok { stock_quantity := p.stock_quantity - q, unit_cost := p.unit_cost }) := by
  constructor
  · intro h
    constructor
    · simp [applyStockMove, h]
    · simp [committedProduct, applyStockMove, h, Except.toOption]
  · intro h
    simp [applyStockMove, not_lt.mpr h]

/-- Witness for C1 at spec example 2: stock 20, issue 30 fails carrying
required 30 / available 20 and leaves the product unchanged; issue 5
succeeds leaving stock 15. -/
theorem issue_insufficient_or_decrements_witness :
    (applyStockMove ⟨20, 7⟩ .issue 30 2 = .error (.insufficientStock 30 20)
        ∧ committedProduct ⟨20, 7⟩ .issue 30 2 = ⟨20, 7⟩)
    ∧ applyStockMove ⟨20, 7⟩ .issue 5 2 = .ok ⟨15, 7⟩ := by
  refine ⟨(issue_insufficient_or_decrements ⟨20, 7⟩ 30 2).1 (by norm_num), ?_⟩
  have h := (issue_insufficient_or_decrements ⟨20, 7⟩ 5 2).2 (by norm_num)
  norm_num at h
  exact h

/-- C2: a Receipt of quantity `q` at cost `c` always sets stock to
`oldQty + q`; when the new stock is positive the unit cost becomes the
quantity-weighted average `(oldQty * oldCost + q * c) / (oldQty + q)`, and
otherwise it is left unchanged.  Spec example 1 is the last conjunct. -/
theorem receipt_moving_average (p : Product) (q c : ℚ) :
    (p.stock_quantity + q > 0 →
      applyStockMove p .receipt q c =
        .ok { stock_quantity := p.stock_quantity + q,
              unit_cost := (p.stock_quantity * p.unit_cost + q * c) / (p.stock_quantity + q) })
    ∧ (p.stock_quantity + q ≤ 0 →
      applyStockMove p .receipt q c =
        .ok { stock_quantity := p.stock_quantity + q, unit_cost := p.unit_cost })
    ∧ applyStockMove ⟨100, 10⟩ .receipt 50 16 = .ok ⟨150, 12⟩ := by
  refine ⟨fun h => ?_, fun h => ?_, by norm_num [applyStockMove]⟩
  · simp only [applyStockMove, h, if_pos]
    congr 2
    ring_nf
  · simp [applyStockMove, not_lt.mpr h]

/-- Witness for C2: receiving 50 at 16 into stock 100 at 10 yields 150 at 12
(positive branch), and receiving 3 into stock -5 (an adjustment-driven
negative) leaves the cost untouched. -/
theorem receipt_moving_average_witness :
    applyStockMove ⟨100, 10⟩ .receipt 50 16 = .ok ⟨150, 12⟩
    ∧ applyStockMove ⟨-5, 10⟩ .receipt 3 16 = .ok ⟨-2, 10⟩ := by
  constructor
  · have h := (receipt_moving_average ⟨100, 10⟩ 50 16).1 (by norm_num)
    norm_num at h
    exact h
  · have h := (receipt_moving_average ⟨-5, 10⟩ 3 16).2.1 (by norm_num)
    norm_num at h
    exact h

/-! ## Work-order lifecycle (`app/utils/exceptions.py`,
`app/api/routes/work_orders.py`) -/

/-- The `valid_transitions` table of
`validate_work_order_status_transition`; an unlisted current status maps to
the empty list (`dict.get(current_status, [])`). -/
def validTransitions (current : String) : List String :=
  if current = "Ready" then ["Started", "Canceled"]
  else if current = "Started" then ["Paused", "Completed", "Canceled"]
  else if current = "Paused" then ["Started", "Canceled"]
  else if current = "Completed" then []
  else if current = "Canceled" then []
  else []

/-- Business error `INVALID_STATUS_TRANSITION` carrying the current and the
requested status. -/
inductive TransitionError
  | invalidStatusTransition (current new : String)
deriving DecidableEq

/-- `validate_work_order_status_transition`: fails unless the requested
status is listed for the current status. -/
def validate_work_order_status_transition (current new : String) :
    Except TransitionError Unit :=
  if new ∈ validTransitions current then .ok ()
  else .error (.invalidStatusTransition current new)

/-- The status-relevant fields of a `WorkOrder` row: its status name and its
soft-delete flag (`deleted_at` set or not). -/
structure WorkOrder where
  status : String
  deleted : Bool
deriving DecidableEq

/-- The status-relevant fields of a `ManufacturingOrder` row. -/
structure MfgOrder where
  status : String
  actual_end_date : Option ℕ
deriving DecidableEq

/-- A manufacturing order together with its work orders. -/
structure WOState where
  workOrders : List WorkOrder
  mo : MfgOrder
deriving DecidableEq

/-- Set the status of the `i`-th work order. -/
def setStatus : List WorkOrder → ℕ → String → List WorkOrder
  | [], _, _ => []
  | w :: ws, 0, s => { w with status := s } :: ws
  | w :: ws, n + 1, s => w :: setStatus ws n s

/-- The route's count of sibling work orders that are not yet done:
non-deleted rows whose status differs from "Done". -/
def pendingCount (wos : List WorkOrder) : ℕ :=
  (wos.filter (fun w => decide (w.status ≠ "Done") && !w.deleted)).length

/-- `update_work_order_status`: sets the requested status unconditionally
(the route performs no transition validation), and when the new status is
"Done" and no non-deleted sibling remains pending, marks the manufacturing
order "Done" and stamps its `actual_end_date`. -/
def update_work_order_status (st : WOState) (i : ℕ) (newStatus : String) (now : ℕ) :
    WOState :=
  let wos := setStatus st.workOrders i newStatus
  if newStatus = "Done" then
    if pendingCount wos = 0 then
      { workOrders := wos,
        mo := { status := "Done", actual_end_date := some now } }
    else
      { workOrders := wos, mo := st.mo }
  else
    { workOrders := wos, mo := st.mo }

/-- C3 (divergence): the transition validator rejects Completed → Started,
yet the status-change route applies exactly that change without failing —
it never invokes the validator -/
theorem completed_to_started_applied_despite_invalid :
    validate_work_order_status_transition "Completed" "Started"
      = .error (.invalidStatusTransition "Completed" "Started")
    ∧ update_work_order_status ⟨[⟨"Completed", false⟩], ⟨"In Progress", none⟩⟩ 0 "Started" 5
      = ⟨[⟨"Started", false⟩], ⟨"In Progress", none⟩⟩ := by
  constructor
  · decide
  · decide

/-- Every work order failing the route's pending filter is done or deleted. -/
theorem pendingCount_eq_zero_iff (wos : List WorkOrder) :
    pendingCount wos = 0 ↔ ∀ w ∈ wos, w.deleted = false → w.status = "Done" := by
  unfold pendingCount
  rw [List.length_eq_zero, List.filter_eq_nil_iff]
  constructor
  · intro h w hw hdel
    have := h w hw
    simp [hdel] at this
    exact this
  · intro h w hw
    by_cases hdel : w.deleted
    · simp [hdel]
    · simp only [Bool.not_eq_true] at hdel
      simp [hdel, h w hw hdel]

/-- Whatever the cascade decides, the committed work-order list is the input
list with the `i`-th status replaced. -/
theorem update_work_order_status_workOrders (st : WOState) (i : ℕ) (s : String) (now : ℕ) :
    (update_work_order_status st i s now).workOrders = setStatus st.workOrders i s := by
  unfold update_work_order_status
  split
  · dsimp only
    split <;> rfl
  · rfl

/-- C4: after a work order is set to "Done", if every non-deleted work order
of the manufacturing order is then "Done" the manufacturing order becomes
"Done" with `actual_end_date` stamped, and otherwise the manufacturing
order row is untouched. -/
theorem done_transition_cascades (st : WOState) (i now : ℕ) :
    ((∀ w ∈ (update_work_order_status st i "Done" now).workOrders,
        w.deleted = false → w.status = "Done") →
      (update_work_order_status st i "Done" now).mo.status = "Done"
        ∧ (update_work_order_status st i "Done" now).mo.actual_end_date = some now)
    ∧ ((∃ w ∈ (update_work_order_status st i "Done" now).workOrders,
        w.deleted = false ∧ w.status ≠ "Done") →
      (update_work_order_status st i "Done" now).mo = st.mo) := by
  constructor
  · intro h
    have hz : pendingCount (setStatus st.workOrders i "Done") = 0 := by
      rw [pendingCount_eq_zero_iff]
      simpa [update_work_order_status_workOrders] using h
    simp [update_work_order_status, hz]
  · intro h
    obtain ⟨w, hw, hdel, hst⟩ := h
    rw [update_work_order_status_workOrders] at hw
    have hnz : pendingCount (setStatus st.workOrders i "Done") ≠ 0 := by
      rw [Ne, pendingCount_eq_zero_iff]
      intro hall
      exact hst (hall w hw hdel)
    simp [update_work_order_status, hnz]

/-- Witness for C4: completing the last pending work order marks the
manufacturing order Done at time 9; completing one while a sibling is still
Ready leaves the manufacturing order untouched. -/
theorem done_transition_cascades_witness :
    ((update_work_order_status ⟨[⟨"Started", false⟩], ⟨"In Progress", none⟩⟩ 0 "Done" 9).mo.status = "Done"
      ∧ (update_work_order_status ⟨[⟨"Started", false⟩], ⟨"In Progress", none⟩⟩ 0 "Done" 9).mo.actual_end_date = some 9)
    ∧ (update_work_order_status ⟨[⟨"Started", false⟩, ⟨"Ready", false⟩], ⟨"In Progress", none⟩⟩ 0 "Done" 9).mo
        = ⟨"In Progress", none⟩ :=
  ⟨(done_transition_cascades ⟨[⟨"Started", false⟩], ⟨"In Progress", none⟩⟩ 0 9).1 (by decide),
   (done_transition_cascades ⟨[⟨"Started", false⟩, ⟨"Ready", false⟩], ⟨"In Progress", none⟩⟩ 0 9).2 (by decide)⟩

/-! ## BOM cost roll-up (`app/api/routes/bom.py`) -/

/-- The cost-relevant fields of a `BOMComponent` row, plus its soft-delete
flag. -/
structure BOMComponent where
  quantity : ℚ
  unit_cost : ℚ
  deleted : Bool
deriving DecidableEq

/-- The cost-relevant fields of a `BOMOperation` row, plus its soft-delete
flag. -/
structure BOMOperation where
  duration : ℚ
  setup_time : ℚ
  cost_per_hour : ℚ
  deleted : Bool
deriving DecidableEq

/-- `sum(component.quantity * component.unit_cost for component in components)`
— no rounding is applied. -/
def materialCost (components : List BOMComponent) : ℚ :=
  (components.map (fun c => c.quantity * c.unit_cost)).sum

/-- `sum((operation.duration + operation.setup_time) / 60 * operation.cost_per_hour
for operation in operations)`. -/
def laborCost (operations : List BOMOperation) : ℚ :=
  (operations.map (fun o => (o.duration + o.setup_time) / 60 * o.cost_per_hour)).sum

/-- `calculate_bom_cost_detailed`: queries the BOM's non-deleted components
and operations and returns material cost, labor cost, their sum, and the two
counts. -/
def calculate_bom_cost_detailed (components : List BOMComponent)
    (operations : List BOMOperation) : ℚ × ℚ × ℚ × ℕ × ℕ :=
  let live_components := components.filter (fun c => !c.deleted)
  let live_operations := operations.filter (fun o => !o.deleted)
  (materialCost live_components, laborCost live_operations,
   materialCost live_components + laborCost live_operations,
   live_components.length, live_operations.length)

/-- `calculate_bom_cost`: the total-cost projection of the detailed
calculation. -/
def calculate_bom_cost (components : List BOMComponent)
    (operations : List BOMOperation) : ℚ :=
  (calculate_bom_cost_detailed components operations).2.2.1

/-- A `BOM` row with its children and its stored derived `total_cost`. -/
structure BOM where
  components : List BOMComponent
  operations : List BOMOperation
  total_cost : ℚ
deriving DecidableEq

/-- `create_bom_component`: inserts the component and recomputes the stored
total cost before committing. -/
def create_bom_component (b : BOM) (c : BOMComponent) : BOM :=
  let comps := b.components ++ [c]
  { b with components := comps,
           total_cost := calculate_bom_cost comps b.operations }

/-- Replace the `i`-th component. -/
def setComponent : List BOMComponent → ℕ → BOMComponent → List BOMComponent
  | [], _, _ => []
  | _ :: cs, 0, c => c :: cs
  | c :: cs, n + 1, c' => c :: setComponent cs n c'

/-- `update_bom_component`: applies the field update and recomputes the
stored total cost before committing. -/
def update_bom_component (b : BOM) (i : ℕ) (c : BOMComponent) : BOM :=
  let comps := setComponent b.components i c
  { b with components := comps,
           total_cost := calculate_bom_cost comps b.operations }

/-- Soft-delete the `i`-th component. -/
def retireComponent : List BOMComponent → ℕ → List BOMComponent
  | [], _ => []
  | c :: cs, 0 => { c with deleted := true } :: cs
  | c :: cs, n + 1 => c :: retireComponent cs n

/-- `delete_bom_component`: soft-deletes the component and recomputes the
stored total cost before committing. -/
def delete_bom_component (b : BOM) (i : ℕ) : BOM :=
  let comps := retireComponent b.components i
  { b with components := comps,
           total_cost := calculate_bom_cost comps b.operations }

/-- `create_bom_operation`: inserts the operation and commits — the source
performs no total-cost recomputation on this path. -/
def create_bom_operation (b : BOM) (o : BOMOperation) : BOM :=
  { b with operations := b.operations ++ [o] }

/-- Replace the `i`-th operation. -/
def setOperation : List BOMOperation → ℕ → BOMOperation → List BOMOperation
  | [], _, _ => []
  | _ :: os, 0, o => o :: os
  | o :: os, n + 1, o' => o :: setOperation os n o'

/-- `update_bom_operation`: applies the field update and commits — no
total-cost recomputation in the source. -/
def update_bom_operation (b : BOM) (i : ℕ) (o : BOMOperation) : BOM :=
  { b with operations := setOperation b.operations i o }

/-- Soft-delete the `i`-th operation. -/
def retireOperation : List BOMOperation → ℕ → List BOMOperation
  | [], _ => []
  | o :: os, 0 => { o with deleted := true } :: os
  | o :: os, n + 1 => o :: retireOperation os n

/-- `delete_bom_operation`: soft-deletes the operation and commits — no
total-cost recomputation in the source. -/
def delete_bom_operation (b : BOM) (i : ℕ) : BOM :=
  { b with operations := retireOperation b.operations i }

/-- The stored total cost agrees with a fresh roll-up over the current
non-deleted children. -/
def totalCostConsistent (b : BOM) : Prop :=
  b.total_cost = calculate_bom_cost b.components b.operations

/-- C5 (divergence): component mutations do keep `total_cost` consistent,
but adding an operation (duration 30, setup 10, rate 60) to an empty BOM
leaves the stored total at 0 while the roll-up over the committed children
is 40 — the operation routes never recompute the stored total. -/
theorem operation_create_leaves_total_cost_stale :
    totalCostConsistent (create_bom_component ⟨[], [], 0⟩ ⟨2, 5, false⟩)
    ∧ (create_bom_operation ⟨[], [], 0⟩ ⟨30, 10, 60, false⟩).total_cost = 0
    ∧ calculate_bom_cost (create_bom_operation ⟨[], [], 0⟩ ⟨30, 10, 60, false⟩).components
        (create_bom_operation ⟨[], [], 0⟩ ⟨30, 10, 60, false⟩).operations = 40
    ∧ ¬ totalCostConsistent (create_bom_operation ⟨[], [], 0⟩ ⟨30, 10, 60, false⟩) := by
  refine ⟨rfl, rfl, ?_, ?_⟩
  · norm_num [calculate_bom_cost, calculate_bom_cost_detailed, materialCost, laborCost,
      create_bom_operation]
  · norm_num [totalCostConsistent, calculate_bom_cost, calculate_bom_cost_detailed,
      materialCost, laborCost, create_bom_operation]

/-- Modelled from the spec: rounding a decimal amount to 2 decimal places
(the source applies no rounding anywhere in the cost roll-up; this
definition exists only to compare the spec's wording with the code). -/
def roundTo2 (q : ℚ) : ℚ := (⌊q * 100 + 1 / 2⌋ : ℚ) / 100

/-- Modelled from the spec: material cost "rounded to 2 decimal places at
the sum, not per-term". -/
def materialCostRoundedAtSum (components : List BOMComponent) : ℚ :=
  roundTo2 (materialCost components)

/-- C6 counterexample: for the single component (quantity 0.001, unit cost
0.01) the code returns the exact sum 0.00001 while the spec's
rounded-at-the-sum value is 0 — the roll-up does not round the material
cost. -/
theorem material_cost_not_rounded_counterexample :
    (calculate_bom_cost_detailed [⟨1 / 1000, 1 / 100, false⟩] []).1 = 1 / 100000
    ∧ materialCostRoundedAtSum [⟨1 / 1000, 1 / 100, false⟩] = 0
    ∧ (calculate_bom_cost_detailed [⟨1 / 1000, 1 / 100, false⟩] []).1
        ≠ materialCostRoundedAtSum [⟨1 / 1000, 1 / 100, false⟩] := by
  refine ⟨?_, ?_, ?_⟩ <;>
    norm_num [calculate_bom_cost_detailed, materialCost, materialCostRoundedAtSum, roundTo2]

/-- C6 as amended: on lists of live rows the roll-up returns the exact
(unrounded) sums — material cost Σ quantity × unit_cost, labor cost
Σ (duration + setup_time) / 60 × cost_per_hour — and their sum as the total;
the spec's worked example yields 13, 40 and 53. -/
theorem rollup_sum_formulas (components : List BOMComponent)
    (operations : List BOMOperation)
    (hc : ∀ c ∈ components, c.deleted = false)
    (ho : ∀ o ∈ operations, o.deleted = false) :
    (calculate_bom_cost_detailed components operations).1
        = (components.map (fun c => c.quantity * c.unit_cost)).sum
    ∧ (calculate_bom_cost_detailed components operations).2.1
        = (operations.map (fun o => (o.duration + o.setup_time) / 60 * o.cost_per_hour)).sum
    ∧ (calculate_bom_cost_detailed components operations).2.2.1
        = (calculate_bom_cost_detailed components operations).1
          + (calculate_bom_cost_detailed components operations).2.1
    ∧ calculate_bom_cost_detailed [⟨2, 5, false⟩, ⟨1, 3, false⟩] [⟨30, 10, 60, false⟩]
        = (13, 40, 53, 2, 1) := by
  have hcf : components.filter (fun c => !c.deleted) = components :=
    List.filter_eq_self.mpr (fun c h => by simp [hc c h])
  have hof : operations.filter (fun o => !o.deleted) = operations :=
    List.filter_eq_self.mpr (fun o h => by simp [ho o h])
  refine ⟨?_, ?_, rfl, ?_⟩
  · simp [calculate_bom_cost_detailed, materialCost, hcf]
  · simp [calculate_bom_cost_detailed, laborCost, hof]
  · norm_num [calculate_bom_cost_detailed, materialCost, laborCost, Prod.ext_iff]

/-- Witness for C6 as amended, at the spec's worked example. -/
theorem rollup_sum_formulas_witness :
    (calculate_bom_cost_detailed [⟨2, 5, false⟩] [⟨30, 10, 60, false⟩]).1
        = (([⟨2, 5, false⟩] : List BOMComponent).map (fun c => c.quantity * c.unit_cost)).sum
    ∧ calculate_bom_cost_detailed [⟨2, 5, false⟩, ⟨1, 3, false⟩] [⟨30, 10, 60, false⟩]
        = (13, 40, 53, 2, 1) :=
  ⟨(rollup_sum_formulas [⟨2, 5, false⟩] [⟨30, 10, 60, false⟩]
      (by simp) (by simp)).1,
   (rollup_sum_formulas [] [] (by simp) (by simp)).2.2.2⟩

/-- C8: the detailed roll-up is invariant under any permutation of the
component list and any permutation of the operation list. -/
theorem rollup_perm_invariant (c₁ c₂ : List BOMComponent)
    (o₁ o₂ : List BOMOperation) (hc : c₁.Perm c₂) (ho : o₁.Perm o₂) :
    calculate_bom_cost_detailed c₁ o₁ = calculate_bom_cost_detailed c₂ o₂ := by
  have hcf := hc.filter (fun c => !c.deleted)
  have hof := ho.filter (fun o => !o.deleted)
  have hm : materialCost (c₁.filter (fun c => !c.deleted))
      = materialCost (c₂.filter (fun c => !c.deleted)) := by
    unfold materialCost
    exact (hcf.map (fun c => c.quantity * c.unit_cost)).sum_eq
  have hl : laborCost (o₁.filter (fun o => !o.deleted))
      = laborCost (o₂.filter (fun o => !o.deleted)) := by
    unfold laborCost
    exact (hof.map (fun o => (o.duration + o.setup_time) / 60 * o.cost_per_hour)).sum_eq
  simp [calculate_bom_cost_detailed, hm, hl, hcf.length_eq, hof.length_eq]

/-- Witness for C8: swapping the two components of the worked example (and
permuting a two-operation list) leaves the whole result unchanged. -/
theorem rollup_perm_invariant_witness :
    calculate_bom_cost_detailed [⟨1, 3, false⟩, ⟨2, 5, false⟩]
        [⟨30, 10, 60, false⟩, ⟨15, 5, 30, false⟩]
      = calculate_bom_cost_detailed [⟨2, 5, false⟩, ⟨1, 3, false⟩]
        [⟨15, 5, 30, false⟩, ⟨30, 10, 60, false⟩] :=
  rollup_perm_invariant _ _ _ _
    (List.Perm.swap (⟨2, 5, false⟩ : BOMComponent) ⟨1, 3, false⟩ [])
    (List.Perm.swap (⟨15, 5, 30, false⟩ : BOMOperation) ⟨30, 10, 60, false⟩ [])

/-! ## Order-number sequencer (`create_manufacturing_order`,
`create_work_order`) -/

/-- A parsed order number `{PREFIX}-{YYYYMMDD}-{NNNN}`: the prefix ("MO" or
"WO"), the date component, and the trailing counter. -/
structure OrderNumber where
  pfx : String
  date : String
  counter : ℕ
deriving DecidableEq

/-- `f"{n:04d}"`: the decimal representation left-padded with zeros to at
least four characters. -/
def pad4 (n : ℕ) : String :=
  let s := toString n
  String.mk (List.replicate (4 - s.length) '0') ++ s

/-- The rendered order-number string. -/
def renderOrderNumber (o : OrderNumber) : String :=
  o.pfx ++ "-" ++ o.date ++ "-" ++ pad4 o.counter

/-- Whether a row matches the `LIKE "{pfx}-{today}-%"` filter. -/
def sameScope (pfx date : String) (o : OrderNumber) : Bool :=
  o.pfx = pfx && o.date = date

/-- The trailing counters of the rows matching the scope filter. -/
def scopeCounters (existing : List OrderNumber) (pfx date : String) : List ℕ :=
  (existing.filter (sameScope pfx date)).map (fun o => o.counter)

/-- The counter of the scope's greatest order number (0 when the scope is
empty).  The source takes the lexicographically greatest matching string;
for the 4-digit zero-padded counters this coincides with the numeric
maximum, which is what is modelled here. -/
def scopeMax (existing : List OrderNumber) (pfx date : String) : ℕ :=
  (scopeCounters existing pfx date).foldr max 0

/-- The number-generation block shared by `create_manufacturing_order` and
`create_work_order`: parse the trailing counter of the last matching order
and increment it, or start at 1 (rendered "0001") when no order exists for
the prefix and date. -/
def nextOrderNumber (existing : List OrderNumber) (pfx date : String) : OrderNumber :=
  if (scopeCounters existing pfx date).isEmpty then
    ⟨pfx, date, 1⟩
  else
    ⟨pfx, date, scopeMax existing pfx date + 1⟩

/-- The counters produced by `k` sequential creations, each committing its
new row before the next generation runs. -/
def genCounters (existing : List OrderNumber) (pfx date : String) : ℕ → List ℕ
  | 0 => []
  | k + 1 =>
    let o := nextOrderNumber existing pfx date
    o.counter :: genCounters (o :: existing) pfx date k

/-- Both branches of the generator produce `scopeMax + 1`. -/
theorem nextOrderNumber_eq (existing : List OrderNumber) (pfx date : String) :
    nextOrderNumber existing pfx date = ⟨pfx, date, scopeMax existing pfx date + 1⟩ := by
  unfold nextOrderNumber
  rcases h : scopeCounters existing pfx date with _ | ⟨c, cs⟩
  · simp [scopeMax, h]
  · simp [h]

/-- Committing the generated row raises the scope maximum to its counter. -/
theorem scopeMax_cons_next (existing : List OrderNumber) (pfx date : String) :
    scopeMax (nextOrderNumber existing pfx date :: existing) pfx date
      = scopeMax existing pfx date + 1 := by
  rw [nextOrderNumber_eq]
  simp [scopeMax, scopeCounters, sameScope, List.filter_cons]

/-- The `k` sequential counters are exactly the consecutive block starting
just above the pre-existing scope maximum. -/
theorem genCounters_eq_range' (pfx date : String) (k : ℕ) :
    ∀ existing : List OrderNumber,
      genCounters existing pfx date k = List.range' (scopeMax existing pfx date + 1) k := by
  induction k with
  | zero => intro existing; rfl
  | succ k ih =>
    intro existing
    rw [genCounters, List.range'_succ]
    rw [ih, scopeMax_cons_next, nextOrderNumber_eq]

/-- C7: sequential order numbers within one (prefix, date) scope are the
consecutive counters above the pre-existing maximum — strictly increasing,
gap-free and duplicate-free — a fresh date scope starts at 0001, and the
rendered strings have the `{PREFIX}-{YYYYMMDD}-{NNNN}` shape of the worked
example (the analysis models counters in the 4-digit range, where the
source's lexicographic maximum equals the numeric one). -/
theorem order_numbers_sequential (existing : List OrderNumber) (pfx date : String)
    (k : ℕ) (_hrange : scopeMax existing pfx date + k ≤ 9999) :
    genCounters existing pfx date k
        = List.range' (scopeMax existing pfx date + 1) k
    ∧ List.Pairwise (fun a b => a < b) (genCounters existing pfx date k)
    ∧ (genCounters existing pfx date k).Nodup
    ∧ (scopeCounters existing pfx date = [] →
        genCounters existing pfx date k = List.range' 1 k)
    ∧ renderOrderNumber (nextOrderNumber [] "MO" "20240101") = "MO-20240101-0001"
    ∧ renderOrderNumber (nextOrderNumber [⟨"MO", "20240101", 1⟩] "MO" "20240101")
        = "MO-20240101-0002" := by
  have hgen := genCounters_eq_range' pfx date k existing
  refine ⟨hgen, ?_, ?_, ?_, by decide, by decide⟩
  · rw [hgen]
    have : List.Pairwise (fun a b => a < b) (List.range' (scopeMax existing pfx date + 1) k) := by
      apply List.pairwise_iff_getElem.mpr
      intro i j hi hj hij
      simp only [List.getElem_range']
      omega
    exact this
  · rw [hgen]
    exact (List.nodup_range' _ _)
  · intro hfresh
    rw [hgen]
    simp [scopeMax, hfresh]

/-- Witness for C7: three creations on a fresh date produce counters
1, 2, 3. -/
theorem order_numbers_sequential_witness :
    genCounters [] "MO" "20240101" 3 = List.range' 1 3
    ∧ renderOrderNumber (nextOrderNumber [] "MO" "20240101") = "MO-20240101-0001" := by
  have h := order_numbers_sequential [] "MO" "20240101" 3 (by decide)
  exact ⟨h.2.2.2.1 (by decide), h.2.2.2.2.1⟩

/-! ## Manufacturing-order creation (`create_manufacturing_order`,
`validate_manufacturing_order_quantity`) -/

/-- Errors of the quantity validator: `VALIDATION_ERROR` for a non-positive
quantity, `QUANTITY_LIMIT_EXCEEDED` (with the offending and the maximum
quantity) above 10,000. -/
inductive QuantityError
  | validationError (quantity : ℤ)
  | quantityLimitExceeded (quantity max_quantity : ℤ)
deriving DecidableEq

/-- `validate_manufacturing_order_quantity` from `app/utils/exceptions.py`. -/
def validate_manufacturing_order_quantity (quantity : ℤ) : Except QuantityError Unit :=
  if quantity ≤ 0 then .error (.validationError quantity)
  else if quantity > 10000 then .error (.quantityLimitExceeded quantity 10000)
  else .ok ()

/-- The fields of a `ManufacturingOrder` row relevant to creation. -/
structure MORecord where
  order_number : OrderNumber
  quantity : ℤ
deriving DecidableEq

/-- `create_manufacturing_order`: generates the next "MO" order number for
today and inserts the row; the route applies no quantity validation. -/
def create_manufacturing_order (existing : List MORecord) (today : String)
    (quantity : ℤ) : List MORecord :=
  let order_number := nextOrderNumber (existing.map (fun m => m.order_number)) "MO" today
  existing ++ [⟨order_number, quantity⟩]

/-- C9 (divergence): the validator rejects quantity 20,000 (and quantity 0),
yet the creation route inserts a manufacturing order with quantity 20,000 —
it never invokes the quantity check. -/
theorem oversized_quantity_order_created :
    validate_manufacturing_order_quantity 20000
        = .error (.quantityLimitExceeded 20000 10000)
    ∧ validate_manufacturing_order_quantity 0 = .error (.validationError 0)
    ∧ (∀ q : ℤ, 1 ≤ q → q ≤ 10000 → validate_manufacturing_order_quantity q = .ok ())
    ∧ create_manufacturing_order [] "20240101" 20000
        = [⟨⟨"MO", "20240101", 1⟩, 20000⟩] := by
  refine ⟨by decide, by decide, ?_, by decide⟩
  intro q h1 h2
  unfold validate_manufacturing_order_quantity
  rw [if_neg (by omega), if_neg (by omega)]

/-! ## Permission evaluator (`app/utils/rbac.py`) -/

/-- The values of the `Permission` enum — the closed permission universe. -/
def allPermissions : List String :=
  ["create_user", "read_user", "update_user", "delete_user",
   "create_product", "read_product", "update_product", "delete_product",
   "create_bom", "read_bom", "update_bom", "delete_bom",
   "create_work_center", "read_work_center", "update_work_center", "delete_work_center",
   "create_manufacturing_order", "read_manufacturing_order",
   "update_manufacturing_order", "delete_manufacturing_order",
   "approve_manufacturing_order",
   "create_work_order", "read_work_order", "update_work_order", "delete_work_order",
   "start_work_order", "pause_work_order", "complete_work_order",
   "create_stock_move", "read_stock_move", "update_stock_move", "delete_stock_move",
   "read_reports", "export_reports", "read_analytics",
   "manage_roles", "manage_system", "view_audit_logs"]

/-- The `ROLE_PERMISSIONS` dictionary: "Admin" maps to every permission
value, the other three configured roles to their static lists, and any
other role name to the empty list (`dict.get(role_name, [])`). -/
def rolePermissions (role : String) : List String :=
  if role = "Admin" then
    allPermissions
  else if role = "ManufacturingManager" then
    ["create_manufacturing_order", "read_manufacturing_order",
     "update_manufacturing_order", "delete_manufacturing_order",
     "approve_manufacturing_order",
     "create_work_order", "read_work_order", "update_work_order", "delete_work_order",
     "start_work_order", "pause_work_order", "complete_work_order",
     "create_product", "read_product", "update_product", "delete_product",
     "create_bom", "read_bom", "update_bom", "delete_bom",
     "create_work_center", "read_work_center", "update_work_center", "delete_work_center",
     "create_stock_move", "read_stock_move", "update_stock_move", "delete_stock_move",
     "read_reports", "export_reports", "read_analytics", "read_user"]
  else if role = "Operator" then
    ["read_manufacturing_order", "read_work_order", "update_work_order",
     "start_work_order", "pause_work_order", "complete_work_order",
     "read_product", "read_bom", "read_work_center",
     "read_stock_move", "create_stock_move"]
  else if role = "InventoryManager" then
    ["read_product", "update_product",
     "create_stock_move", "read_stock_move", "update_stock_move", "delete_stock_move",
     "read_manufacturing_order", "read_work_order",
     "read_reports", "export_reports"]
  else
    []

/-- `has_permission`: a user without a role has no permission; otherwise the
permission value is looked up in the role's static list. -/
def has_permission (role : Option String) (permission : String) : Bool :=
  match role with
  | none => false
  | some r => decide (permission ∈ rolePermissions r)

/-- C10: the permission check is a pure membership predicate — "Admin"
holds every permission of the universe, an unconfigured role name holds
none, and in general a role holds a permission exactly when it is in the
role's static list. -/
theorem has_permission_is_static_lookup (r p : String) :
    (p ∈ allPermissions → has_permission (some "Admin") p = true)
    ∧ (r ≠ "Admin" → r ≠ "ManufacturingManager" → r ≠ "Operator" →
        r ≠ "InventoryManager" → has_permission (some r) p = false)
    ∧ (has_permission (some r) p = true ↔ p ∈ rolePermissions r)
    ∧ has_permission none p = false := by
  refine ⟨?_, ?_, ?_, rfl⟩
  · intro hp
    simp [has_permission, rolePermissions, hp]
  · intro h1 h2 h3 h4
    simp [has_permission, rolePermissions, h1, h2, h3, h4]
  · simp [has_permission]

/-- Witness for C10: Admin holds `manage_system`, the unconfigured role
"Ghost" does not hold `read_product`, and the Operator list contains
`start_work_order` but an Operator cannot `delete_product`. -/
theorem has_permission_is_static_lookup_witness :
    has_permission (some "Admin") "manage_system" = true
    ∧ has_permission (some "Ghost") "read_product" = false
    ∧ has_permission (some "Operator") "start_work_order" = true
    ∧ has_permission (some "Operator") "delete_product" = false := by
  refine ⟨(has_permission_is_static_lookup "Admin" "manage_system").1 (by decide),
    (has_permission_is_static_lookup "Ghost" "read_product").2.1
      (by decide) (by decide) (by decide) (by decide), ?_, ?_⟩
  · exact (has_permission_is_static_lookup "Operator" "start_work_order").2.2.1.mpr (by decide)
  · have h := (has_permission_is_static_lookup "Operator" "delete_product").2.2.1
    by_contra hb
    simp only [Bool.not_eq_false] at hb
    exact absurd (h.mp hb) (by decide)

end TrackMint
